import Mathlib

/-!
Shallow embedding of the Img2Img single-page client: the credential gate
(`validateAPIKey` in the APIKeyInput component), the generation orchestrator
(`generateImage`, `removeImage`, `refreshGeneration` in the ImageGenerator
component) and the top-level App state. Network responses and the JSON values
they carry are modelled explicitly, including the JavaScript semantics of
property access (throwing on null and undefined), truthiness, and the string
conversion applied by the Error constructor.
-/

namespace Img2Img

/-- JavaScript values as they appear in parsed response bodies: JSON values
plus undefined, which property access on objects can yield. -/
inductive Json where
| undefined : Json
| null : Json
| bool (b : Bool) : Json
| num (n : Int) : Json
| str (s : String) : Json
| arr (elems : List Json) : Json
| obj (fields : List (String × Json)) : Json

/-- JavaScript truthiness: undefined, null, false, 0 and the empty string are
falsy, every other value (including empty arrays and objects) is truthy. -/
def Json.truthy : Json → Bool
| .undefined => false
| .null => false
| .bool b => b
| .num n => n != 0
| .str s => s != ""
| .arr _ => true
| .obj _ => true

mutual

/-- JavaScript String() conversion, as applied by the Error constructor to a
non-string argument: arrays join their elements with commas (null and
undefined elements become empty), plain objects become a fixed tag. -/
def Json.jsToString : Json → String
| .undefined => "undefined"
| .null => "null"
| .bool true => "true"
| .bool false => "false"
| .num n => toString n
| .str s => s
| .arr xs => String.intercalate "," (jsToStringElems xs)
| .obj _ => "[object Object]"

/-- Element-wise String() conversion used by Array.prototype.join. -/
def jsToStringElems : List Json → List String
| [] => []
| x :: xs =>
  (match x with
   | .undefined => ""
   | .null => ""
   | y => Json.jsToString y) :: jsToStringElems xs

end

/-- JavaScript property access j.k: throws a TypeError on null and undefined,
returns the field of an object (undefined when absent), and returns undefined
on other primitives, which carry none of the fields this client reads. -/
def Json.get (j : Json) (k : String) : Except String Json :=
match j with
| .undefined => .error ("TypeError: Cannot read properties of undefined (reading " ++ k ++ ")")
| .null => .error ("TypeError: Cannot read properties of null (reading " ++ k ++ ")")
| .obj fields =>
  match fields.lookup k with
  | some v => .ok v
  | none => .ok .undefined
| _ => .ok .undefined

/-- JavaScript index access j[i]: throws on null and undefined, indexes arrays
(undefined when out of range) and strings (one-character string), and looks the
decimal key up on objects. -/
def Json.idx (j : Json) (i : Nat) : Except String Json :=
match j with
| .undefined => .error ("TypeError: Cannot read properties of undefined (reading " ++ toString i ++ ")")
| .null => .error ("TypeError: Cannot read properties of null (reading " ++ toString i ++ ")")
| .arr xs =>
  match xs.get? i with
  | some v => .ok v
  | none => .ok .undefined
| .obj fields =>
  match fields.lookup (toString i) with
  | some v => .ok v
  | none => .ok .undefined
| .str s =>
  match s.data.get? i with
  | some c => .ok (.str (String.singleton c))
  | none => .ok .undefined
| _ => .ok .undefined

/-- Optional-chaining access j?.k: yields undefined instead of throwing when j
is null or undefined. -/
def Json.optGet (j : Json) (k : String) : Except String Json :=
match j with
| .undefined => .ok .undefined
| .null => .ok .undefined
| _ => j.get k

/-- Evaluation of the expression body.error?.message used on both failure
paths of generateImage: a plain access of error followed by an optional-chained
access of message. -/
def jsErrorMessage (body : Json) : Except String Json := do
let e ← body.get "error"
e.optGet "message"

/-- Evaluation of visionData.choices[0].message.content, the refined prompt
extraction on the success path of the chat-completion call. -/
def extractRefinedPrompt (visionData : Json) : Except String Json := do
let choices ← visionData.get "choices"
let c0 ← choices.idx 0
let msg ← c0.get "message"
msg.get "content"

/-- Evaluation of imageData.data[0].url, the URL extraction on the success
path of the image-generation call. -/
def extractImageUrl (imageData : Json) : Except String Json := do
let d ← imageData.get "data"
let d0 ← d.idx 0
d0.get "url"

/-- JavaScript String.prototype.trim: drop leading and trailing whitespace
characters. -/
def jsTrim (s : String) : String :=
String.mk (((s.data.dropWhile Char.isWhitespace).reverse.dropWhile Char.isWhitespace).reverse)

/-- Outbound HTTP requests the ImageGenerator component can issue, with the
fields the fetch calls actually send: the Authorization header value, the model
id, and the JSON body fields. -/
inductive Request where
| chatCompletion (auth : String) (model : String) (instruction : String)
    (images : List String) (maxTokens : Nat) : Request
| imageGeneration (auth : String) (model : String) (prompt : Json)
    (n : Nat) (size : String) : Request

/-- Authorization header value carried by a request. -/
def Request.auth : Request → String
| .chatCompletion a _ _ _ _ => a
| .imageGeneration a _ _ _ _ => a

/-- Whether a request targets the image-generation endpoint. -/
def Request.isImageGen : Request → Bool
| .chatCompletion _ _ _ _ _ => false
| .imageGeneration _ _ _ _ _ => true

/-- Outcome of one fetch call: either the promise rejects (transport failure,
throwEx carries the runtime Error message), or a response arrives with its ok
flag, status, statusText, and the outcome of calling .json() on it (which can
itself throw, carrying the SyntaxError message). -/
inductive FetchOutcome where
| throwEx (msg : String) : FetchOutcome
| response (ok : Bool) (status : Nat) (statusText : String)
    (jsonResult : Except String Json) : FetchOutcome

/-- The network environment of one generateImage invocation: what the
chat-completion fetch and the image-generation fetch would each produce. -/
structure Network where
  visionFetch : FetchOutcome
  imageFetch : FetchOutcome

/-- State of the ImageGenerator component. generatedImage is a JavaScript
value (null when absent) because setGeneratedImage stores whatever
imageData.data[0].url evaluates to. -/
structure GenState where
  uploadedImages : List String
  prompt : String
  generatedImage : Json
  isGenerating : Bool
  error : String
  isDragging : Bool

/-- The instruction text of the chat-completion request, embedding the count
of uploaded images and the literal user prompt. -/
def instructionText (count : Nat) (prompt : String) : String :=
"Based on these " ++ toString count ++ " image(s) and the user\x27s request: \"" ++
  prompt ++
  "\", create a detailed and specific prompt for DALL-E 3 image generation. The prompt should be descriptive, artistic, and suitable for creating a high-quality image. Focus on visual elements, style, composition, and artistic details. Consider all the images provided as reference or inspiration."

/-- The chat-completion request generateImage sends first: bearer credential,
the gpt-4o model, the instruction text, every uploaded image inline, and
max_tokens 1000. -/
def chatRequest (key : String) (images : List String) (prompt : String) : Request :=
Request.chatCompletion ("Bearer " ++ key) "gpt-4o"
  (instructionText images.length prompt) images 1000

/-- The image-generation request generateImage sends second: bearer
credential, the dall-e-3 model, the refined prompt, n 1 and size
1024x1024. -/
def imageRequest (key : String) (refinedPrompt : Json) : Request :=
Request.imageGeneration ("Bearer " ++ key) "dall-e-3" refinedPrompt 1 "1024x1024"

/-- The try-block of generateImage, applied to the outcomes of the two
fetches: issue the chat-completion request; on a non-ok status read the body
and throw the provider message (stringified by the Error constructor) when
truthy, otherwise the synthesized generic message; on ok extract the refined
prompt, issue the image-generation request, and symmetrically either throw the
failure message or yield the extracted URL. Returns the thrown message or the
URL, together with the requests issued. -/
def generateAttempt (key : String) (images : List String) (prompt : String) :
    FetchOutcome → FetchOutcome → Except String Json × List Request
| .throwEx m, _ => (.error m, [chatRequest key images prompt])
| .response ok status statusText jres, imageFetch =>
  if !ok then
    match jres with
    | .error m => (.error m, [chatRequest key images prompt])
    | .ok body =>
      match jsErrorMessage body with
      | .error m => (.error m, [chatRequest key images prompt])
      | .ok v =>
        (.error (if v.truthy then v.jsToString
                 else "Vision API error: " ++ toString status ++ " " ++ statusText),
         [chatRequest key images prompt])
  else
    match jres with
    | .error m => (.error m, [chatRequest key images prompt])
    | .ok visionData =>
      match extractRefinedPrompt visionData with
      | .error m => (.error m, [chatRequest key images prompt])
      | .ok refinedPrompt =>
        match imageFetch with
        | .throwEx m =>
          (.error m, [chatRequest key images prompt, imageRequest key refinedPrompt])
        | .response ok2 _ _ jres2 =>
          if !ok2 then
            match jres2 with
            | .error m =>
              (.error m, [chatRequest key images prompt, imageRequest key refinedPrompt])
            | .ok body =>
              match jsErrorMessage body with
              | .error m =>
                (.error m, [chatRequest key images prompt, imageRequest key refinedPrompt])
              | .ok v =>
                (.error (if v.truthy then v.jsToString else "Failed to generate image"),
                 [chatRequest key images prompt, imageRequest key refinedPrompt])
          else
            match jres2 with
            | .error m =>
              (.error m, [chatRequest key images prompt, imageRequest key refinedPrompt])
            | .ok imageData =>
              match extractImageUrl imageData with
              | .error m =>
                (.error m, [chatRequest key images prompt, imageRequest key refinedPrompt])
              | .ok url =>
                (.ok url, [chatRequest key images prompt, imageRequest key refinedPrompt])

/-- The generateImage handler: the precondition check sets a validation error
and returns before any state flag or network activity; otherwise isGenerating
is raised and the prior error cleared, the try-block runs, a thrown message is
caught into the error state, a yielded URL replaces generatedImage, and the
finally-block clears isGenerating on every path. -/
def generateImage (key : String) (net : Network) (st : GenState) :
    GenState × List Request :=
if st.uploadedImages.length = 0 ∨ jsTrim st.prompt = "" then
  ({ st with error := "Please upload at least one image and enter a prompt" }, [])
else
  let st1 := { st with isGenerating := true, error := "" }
  match generateAttempt key st.uploadedImages st.prompt net.visionFetch net.imageFetch with
  | (.ok url, reqs) => ({ st1 with generatedImage := url, isGenerating := false }, reqs)
  | (.error m, reqs) => ({ st1 with error := m, isGenerating := false }, reqs)

/-- Array.prototype.filter with an index-aware callback, threading the current
index from a start value. -/
def filterWithIndex (p : Nat → String → Bool) : List String → Nat → List String
| [], _ => []
| a :: l, n => if p n a then a :: filterWithIndex p l (n + 1) else filterWithIndex p l (n + 1)

/-- The removeImage handler: prev.filter keeping every element whose position
differs from the given index. The index is an integer, matching the JavaScript
number handed in by the caller. -/
def removeImage (index : Int) (imgs : List String) : List String :=
filterWithIndex (fun i _ => decide ((i : Int) ≠ index)) imgs 0

/-- The refreshGeneration handler: clears the uploaded images, the prompt, the
generated image (to null) and the error message. -/
def refreshGeneration (st : GenState) : GenState :=
{ st with uploadedImages := [], prompt := "", generatedImage := Json.null, error := "" }

/-- State of the APIKeyInput component: the text-field value and the
validation flags. -/
structure KeyInputState where
  apiKey : String
  isValidating : Bool
  validationError : String

/-- Requests the credential gate can issue: the GET of the model listing with
its Authorization header value. -/
inductive KeyRequest where
| models (auth : String) : KeyRequest

/-- Outcome of the validation fetch: a response with its ok flag, or a
transport failure (the fetch promise rejects). -/
inductive KeyFetchOutcome where
| response (ok : Bool) : KeyFetchOutcome
| networkError : KeyFetchOutcome

/-- The validateAPIKey handler: an empty (after trim) key sets the
input-required message and returns with no request; otherwise isValidating is
raised, the request is issued, an ok response propagates the untrimmed key to
onAPIKeyValidated, a non-ok response or transport failure sets the respective
message, and the finally-block clears isValidating. Returns the new component
state, the key propagated to the caller (if any), and the requests issued. -/
def validateAPIKey (st : KeyInputState) (net : KeyFetchOutcome) :
    KeyInputState × Option String × List KeyRequest :=
if jsTrim st.apiKey = "" then
  ({ st with validationError := "Please enter your OpenAI API key" }, none, [])
else
  let st1 := { st with isValidating := true, validationError := "" }
  let req := KeyRequest.models ("Bearer " ++ st.apiKey)
  match net with
  | .response true => ({ st1 with isValidating := false }, some st.apiKey, [req])
  | .response false =>
    let msg := "Invalid API key. Please check and try again."
    ({ st1 with isValidating := false, validationError := msg }, none, [req])
  | .networkError =>
    let msg := "Network error. Please check your connection and try again."
    ({ st1 with isValidating := false, validationError := msg }, none, [req])

/-- State of the App component: the session credential, absent before
validation and after logout. -/
structure AppState where
  apiKey : Option String

/-- The handleAPIKeyValidated callback: stores the propagated key. -/
def handleAPIKeyValidated (key : String) (st : AppState) : AppState :=
{ st with apiKey := some key }

/-- The handleLogout callback: discards the credential. -/
def handleLogout (st : AppState) : AppState :=
{ st with apiKey := none }

/-! Helper lemmas about index-aware filtering, shared by the removeImage
theorems. -/

/-- Filtering with the predicate that keeps every position different from a
given index leaves the list unchanged when no reachable position equals the
index. -/
theorem filterWithIndex_keep_all (index : Int) (l : List String) :
    ∀ n : Nat, (∀ k : Nat, k < l.length → ((n + k : Nat) : Int) ≠ index) →
      filterWithIndex (fun i _ => decide ((i : Int) ≠ index)) l n = l := by
  induction l with
  | nil => intro n _; rfl
  | cons a t ih =>
    intro n h
    have h0 : (n : Int) ≠ index := by simpa using h 0 (by simp)
    simp only [filterWithIndex]
    rw [if_pos (by simpa using h0)]
    congr 1
    apply ih (n + 1)
    intro k hk
    have hx := h (k + 1) (by simpa using Nat.succ_lt_succ hk)
    push_cast at hx ⊢
    omega

/-- Filtering with the predicate that keeps every position different from a
given index removes exactly the element at that index when the index is
reachable. -/
theorem filterWithIndex_remove_at (index : Int) (l : List String) :
    ∀ n k : Nat, k < l.length → ((n + k : Nat) : Int) = index →
      filterWithIndex (fun i _ => decide ((i : Int) ≠ index)) l n = l.eraseIdx k := by
  induction l with
  | nil => intro n k hk _; simp at hk
  | cons a t ih =>
    intro n k hk hi
    cases k with
    | zero =>
      have h0 : (n : Int) = index := by simpa using hi
      simp only [filterWithIndex]
      rw [if_neg (by simp [h0])]
      show filterWithIndex (fun i _ => decide ((i : Int) ≠ index)) t (n + 1) = t
      apply filterWithIndex_keep_all
      intro j hj
      push_cast
      omega
    | succ m =>
      have hne : (n : Int) ≠ index := by push_cast at hi ⊢; omega
      simp only [filterWithIndex]
      rw [if_pos (by simpa using hne)]
      show a :: filterWithIndex (fun i _ => decide ((i : Int) ≠ index)) t (n + 1) =
        a :: t.eraseIdx m
      congr 1
      apply ih
      · simpa using Nat.lt_of_succ_lt_succ hk
      · push_cast at hi ⊢
        omega

/-- C6: the reset operation clears the uploaded images, the prompt, the
generated image and the error message in one step, leaving the transient
flags as they were. -/
theorem refresh_resets_all_fields (st : GenState) :
    (refreshGeneration st).uploadedImages = [] ∧
    (refreshGeneration st).prompt = "" ∧
    (refreshGeneration st).generatedImage = Json.null ∧
    (refreshGeneration st).error = "" ∧
    (refreshGeneration st).isGenerating = st.isGenerating ∧
    (refreshGeneration st).isDragging = st.isDragging :=
  ⟨rfl, rfl, rfl, rfl, rfl, rfl⟩

/-- C7: removing the image at a valid index yields the other elements in
their original relative order, with the length reduced by one. -/
theorem remove_valid_index_drops_exactly_one (imgs : List String) (i : Nat)
    (h : i < imgs.length) :
    removeImage (i : Int) imgs = imgs.take i ++ imgs.drop (i + 1) ∧
    (removeImage (i : Int) imgs).length = imgs.length - 1 := by
  have he : removeImage (i : Int) imgs = imgs.eraseIdx i := by
    unfold removeImage
    apply filterWithIndex_remove_at
    · exact h
    · simp
  constructor
  · rw [he, List.eraseIdx_eq_take_drop_succ]
  · rw [he, List.length_eraseIdx]
    simp [h]

/-- Witness for C7 at a concrete list and index. -/
theorem remove_valid_index_drops_exactly_one_witness :
    removeImage 1 ["a", "b", "c"] = ["a", "c"] ∧
    (removeImage 1 ["a", "b", "c"]).length = 2 :=
  remove_valid_index_drops_exactly_one ["a", "b", "c"] 1 (by decide)

/-- C9: removing with an out-of-range index, negative or at least the length,
leaves the uploaded-image list unchanged. -/
theorem remove_out_of_range_unchanged (imgs : List String) (index : Int)
    (h : index < 0 ∨ (imgs.length : Int) ≤ index) :
    removeImage index imgs = imgs := by
  unfold removeImage
  apply filterWithIndex_keep_all
  intro k hk
  rcases h with h | h
  · push_cast
    omega
  · push_cast at h ⊢
    omega

/-- Witness for C9 at a negative and at a too-large concrete index. -/
theorem remove_out_of_range_unchanged_witness :
    removeImage (-1) ["a", "b"] = ["a", "b"] ∧ removeImage 5 ["a", "b"] = ["a", "b"] :=
  ⟨remove_out_of_range_unchanged ["a", "b"] (-1) (by left; decide),
   remove_out_of_range_unchanged ["a", "b"] 5 (by right; decide)⟩

/-- C8: an empty (after trim) candidate key sets the input-required message,
issues no request, and propagates nothing to the caller. -/
theorem validate_empty_key_no_request (st : KeyInputState) (net : KeyFetchOutcome)
    (h : jsTrim st.apiKey = "") :
    validateAPIKey st net =
      ({ st with validationError := "Please enter your OpenAI API key" }, none, []) := by
  unfold validateAPIKey
  rw [if_pos h]

/-- Witness for C8 at a whitespace-only key. -/
theorem validate_empty_key_no_request_witness :
    validateAPIKey ⟨"   ", false, ""⟩ KeyFetchOutcome.networkError =
      (⟨"   ", false, "Please enter your OpenAI API key"⟩, none, []) :=
  validate_empty_key_no_request ⟨"   ", false, ""⟩ KeyFetchOutcome.networkError (by decide)

/-- The try-block issues either the chat-completion request alone or the
chat-completion request followed by one image-generation request. -/
theorem generateAttempt_trace (key : String) (images : List String) (prompt : String)
    (vf imf : FetchOutcome) :
    (generateAttempt key images prompt vf imf).2 = [chatRequest key images prompt] ∨
    ∃ rp, (generateAttempt key images prompt vf imf).2 =
      [chatRequest key images prompt, imageRequest key rp] := by
  cases vf with
  | throwEx m => exact Or.inl rfl
  | response ok status statusText jres =>
    cases ok with
    | false =>
      rcases jres with m | body
      · exact Or.inl rfl
      · simp only [generateAttempt]
        rcases hE : jsErrorMessage body with m | v <;> simp [hE]
    | true =>
      rcases jres with m | body
      · exact Or.inl rfl
      · simp only [generateAttempt]
        rcases hR : extractRefinedPrompt body with m | rp
        · simp [hR]
        · simp only [hR]
          cases imf with
          | throwEx m => exact Or.inr ⟨rp, rfl⟩
          | response ok2 s2 t2 jres2 =>
            cases ok2 with
            | false =>
              rcases jres2 with m | body2
              · exact Or.inr ⟨rp, rfl⟩
              · rcases hE2 : jsErrorMessage body2 with m | v <;>
                  (simp only [hE2]; exact Or.inr ⟨rp, rfl⟩)
            | true =>
              rcases jres2 with m | body2
              · exact Or.inr ⟨rp, rfl⟩
              · rcases hU : extractImageUrl body2 with m | url <;>
                  (simp only [hU]; exact Or.inr ⟨rp, rfl⟩)

/-- Every request the try-block issues carries the bearer header built from
the untrimmed key. -/
theorem generateAttempt_auth (key : String) (images : List String) (prompt : String)
    (vf imf : FetchOutcome) :
    ∀ r ∈ (generateAttempt key images prompt vf imf).2, r.auth = "Bearer " ++ key := by
  intro r hr
  rcases generateAttempt_trace key images prompt vf imf with h | ⟨rp, h⟩
  · rw [h] at hr
    simp at hr
    simp [hr, Request.auth, chatRequest]
  · rw [h] at hr
    simp at hr
    rcases hr with hr | hr <;> simp [hr, Request.auth, chatRequest, imageRequest]

/-- C10: a key that passes validation is propagated to the caller exactly as
entered, the validation request and all later generation requests carry the
bearer header built from that exact string, and App stores it unchanged. -/
theorem validated_key_exact_untrimmed (st : KeyInputState) (app : AppState)
    (h : jsTrim st.apiKey ≠ "") :
    (validateAPIKey st (KeyFetchOutcome.response true)).2.1 = some st.apiKey ∧
    (validateAPIKey st (KeyFetchOutcome.response true)).2.2 =
      [KeyRequest.models ("Bearer " ++ st.apiKey)] ∧
    (handleAPIKeyValidated st.apiKey app).apiKey = some st.apiKey ∧
    ∀ net gst r, r ∈ (generateImage st.apiKey net gst).2 →
      r.auth = "Bearer " ++ st.apiKey := by
  refine ⟨?_, ?_, rfl, ?_⟩
  · unfold validateAPIKey
    rw [if_neg h]
  · unfold validateAPIKey
    rw [if_neg h]
  · intro net gst r hr
    unfold generateImage at hr
    by_cases hc : gst.uploadedImages.length = 0 ∨ jsTrim gst.prompt = ""
    · rw [if_pos hc] at hr
      simp at hr
    · rw [if_neg hc] at hr
      have hall := generateAttempt_auth st.apiKey gst.uploadedImages gst.prompt
        net.visionFetch net.imageFetch
      rcases hA : generateAttempt st.apiKey gst.uploadedImages gst.prompt
        net.visionFetch net.imageFetch with ⟨res, reqs⟩
      rw [hA] at hr hall
      cases res with
      | ok url => exact hall r (by simpa using hr)
      | error m => exact hall r (by simpa using hr)

/-- C2: missing images or a prompt that trims to empty set the validation
message and return with no network request, leaving the uploaded images,
prompt, generated image and flags unchanged. -/
theorem generate_precondition_violation_no_request (key : String) (net : Network)
    (st : GenState) (h : st.uploadedImages.length = 0 ∨ jsTrim st.prompt = "") :
    generateImage key net st =
      ({ st with error := "Please upload at least one image and enter a prompt" }, []) ∧
    (generateImage key net st).1.uploadedImages = st.uploadedImages ∧
    (generateImage key net st).1.prompt = st.prompt ∧
    (generateImage key net st).1.generatedImage = st.generatedImage := by
  refine ⟨?_, ?_, ?_, ?_⟩ <;> (unfold generateImage; rw [if_pos h])

/-- Witness for C2 at an empty upload list. -/
theorem generate_precondition_violation_no_request_witness :
    generateImage "k" ⟨FetchOutcome.throwEx "x", FetchOutcome.throwEx "x"⟩
        ⟨[], "a cat", Json.str "https://old", false, "", false⟩ =
      (⟨[], "a cat", Json.str "https://old", false,
        "Please upload at least one image and enter a prompt", false⟩, []) :=
  (generate_precondition_violation_no_request "k"
    ⟨FetchOutcome.throwEx "x", FetchOutcome.throwEx "x"⟩
    ⟨[], "a cat", Json.str "https://old", false, "", false⟩ (by left; rfl)).1

/-- C1 (amended): when the chat-completion response has a non-success status,
the image-generation request is never issued, and the surfaced error is the
stringified provider message when it is present and truthy, the synthesized
generic message when the parsed body yields no truthy message, and the thrown
exception message when the body fails to parse or reading the message itself
throws. -/
theorem vision_failure_never_calls_image (key : String) (net : Network) (st : GenState)
    (status : Nat) (statusText : String) (jres : Except String Json)
    (hImgs : st.uploadedImages.length ≠ 0) (hPrompt : jsTrim st.prompt ≠ "")
    (hVis : net.visionFetch = FetchOutcome.response false status statusText jres) :
    (generateImage key net st).2 = [chatRequest key st.uploadedImages st.prompt] ∧
    (∀ body v, jres = Except.ok body → jsErrorMessage body = Except.ok v →
      v.truthy = true → (generateImage key net st).1.error = v.jsToString) ∧
    (∀ body v, jres = Except.ok body → jsErrorMessage body = Except.ok v →
      v.truthy = false → (generateImage key net st).1.error =
        "Vision API error: " ++ toString status ++ " " ++ statusText) ∧
    (∀ m, jres = Except.error m → (generateImage key net st).1.error = m) ∧
    (∀ body m, jres = Except.ok body → jsErrorMessage body = Except.error m →
      (generateImage key net st).1.error = m) := by
  have hc : ¬(st.uploadedImages.length = 0 ∨ jsTrim st.prompt = "") :=
    not_or.mpr ⟨hImgs, hPrompt⟩
  have hG : ∀ m,
      generateAttempt key st.uploadedImages st.prompt net.visionFetch net.imageFetch =
        (Except.error m, [chatRequest key st.uploadedImages st.prompt]) →
      generateImage key net st =
        ({ st with isGenerating := false, error := m },
         [chatRequest key st.uploadedImages st.prompt]) := by
    intro m hA
    unfold generateImage
    rw [if_neg hc, hA]
  have hAe : ∀ m, net.visionFetch = FetchOutcome.response false status statusText
        (Except.error m) →
      generateAttempt key st.uploadedImages st.prompt net.visionFetch net.imageFetch =
        (Except.error m, [chatRequest key st.uploadedImages st.prompt]) := by
    intro m hv
    rw [hv]
    rfl
  have hAm : ∀ body m, jres = Except.ok body → jsErrorMessage body = Except.error m →
      generateAttempt key st.uploadedImages st.prompt net.visionFetch net.imageFetch =
        (Except.error m, [chatRequest key st.uploadedImages st.prompt]) := by
    intro body m h1 h2
    subst h1
    rw [hVis]
    simp [generateAttempt, h2]
  have hAv : ∀ body v, jres = Except.ok body → jsErrorMessage body = Except.ok v →
      generateAttempt key st.uploadedImages st.prompt net.visionFetch net.imageFetch =
        (Except.error (if v.truthy then v.jsToString
            else "Vision API error: " ++ toString status ++ " " ++ statusText),
         [chatRequest key st.uploadedImages st.prompt]) := by
    intro body v h1 h2
    subst h1
    rw [hVis]
    simp [generateAttempt, h2]
  refine ⟨?_, ?_, ?_, ?_, ?_⟩
  · rcases jres with m | body
    · rw [hG m (hAe m hVis)]
    · rcases hE : jsErrorMessage body with m | v
      · rw [hG m (hAm body m rfl hE)]
      · rw [hG _ (hAv body v rfl hE)]
  · intro body v h1 h2 h3
    rw [hG _ (hAv body v h1 h2)]
    simp [h3]
  · intro body v h1 h2 h3
    rw [hG _ (hAv body v h1 h2)]
    simp [h3]
  · intro m h1
    subst h1
    rw [hG m (hAe m hVis)]
  · intro body m h1 h2
    rw [hG m (hAm body m h1 h2)]

/-- A generation state that passes the precondition, with no prior generated
image. -/
def stC1 : GenState := ⟨["imgA"], "a cat", Json.null, false, "", false⟩

/-- A network where the chat-completion response has status 500 and a body
that fails to parse as JSON. -/
def netC1bad : Network :=
  ⟨FetchOutcome.response false 500 "Internal Server Error"
    (Except.error "Unexpected end of JSON input"), FetchOutcome.throwEx "unused"⟩

/-- Counterexample to C1 as stated: with a non-success status and an
unparseable body there is no provider-supplied message, yet the surfaced error
is the parse exception message, not the synthesized generic one; the image
request is still never issued. -/
theorem vision_failure_parse_error_not_generic :
    (generateImage "k" netC1bad stC1).2 = [chatRequest "k" ["imgA"] "a cat"] ∧
    (generateImage "k" netC1bad stC1).1.error = "Unexpected end of JSON input" ∧
    (generateImage "k" netC1bad stC1).1.error ≠
      "Vision API error: 500 Internal Server Error" := by
  refine ⟨rfl, rfl, ?_⟩
  decide

/-- A network where the chat-completion response has status 401 and a body
carrying a provider error message. -/
def netC1msg : Network :=
  ⟨FetchOutcome.response false 401 "Unauthorized"
    (Except.ok (Json.obj [("error",
      Json.obj [("message", Json.str "Incorrect API key provided")])])),
   FetchOutcome.throwEx "unused"⟩

/-- Witness for the amended C1: the provider message is surfaced and only the
chat request was issued. -/
theorem vision_failure_never_calls_image_witness :
    (generateImage "k" netC1msg stC1).2 = [chatRequest "k" ["imgA"] "a cat"] ∧
    (generateImage "k" netC1msg stC1).1.error = "Incorrect API key provided" := by
  have h := vision_failure_never_calls_image "k" netC1msg stC1 401 "Unauthorized"
    (Except.ok (Json.obj [("error",
      Json.obj [("message", Json.str "Incorrect API key provided")])]))
    (by decide) (by decide) rfl
  exact ⟨h.1, h.2.1 _ (Json.str "Incorrect API key provided") rfl rfl rfl⟩

/-- Witness for C10 at a key with leading and trailing whitespace: the
propagated credential and the bearer header keep the whitespace. -/
theorem validated_key_exact_untrimmed_witness :
    (validateAPIKey ⟨" sk-test ", false, ""⟩ (KeyFetchOutcome.response true)).2.1 =
      some " sk-test " ∧
    (handleAPIKeyValidated " sk-test " ⟨none⟩).apiKey = some " sk-test " ∧
    (chatRequest " sk-test " ["imgA"] "a cat").auth = "Bearer " ++ " sk-test " := by
  have h := validated_key_exact_untrimmed ⟨" sk-test ", false, ""⟩ ⟨none⟩ (by decide)
  refine ⟨h.1, h.2.2.1, ?_⟩
  apply h.2.2.2 ⟨FetchOutcome.throwEx "down", FetchOutcome.throwEx "down"⟩
    ⟨["imgA"], "a cat", Json.null, false, "", false⟩
  have htr : (generateImage " sk-test "
      ⟨FetchOutcome.throwEx "down", FetchOutcome.throwEx "down"⟩
      ⟨["imgA"], "a cat", Json.null, false, "", false⟩).2 =
      [chatRequest " sk-test " ["imgA"] "a cat"] := rfl
  rw [htr]
  exact List.mem_singleton.mpr rfl

/-- The chat-completion response body used by the success-path witnesses. -/
def visionOkBody : Json :=
  Json.obj [("choices", Json.arr [Json.obj [("message",
    Json.obj [("content", Json.str "refined prompt")])]])]

/-- C3: when both calls succeed and both extractions yield values, the
generated image is replaced wholesale by the value at data[0].url, whatever
was there before, and the generating flag and the error are cleared. -/
theorem generate_success_replaces_image (key : String) (net : Network) (st : GenState)
    (s1 s2 : Nat) (t1 t2 : String) (vbody ibody rp url : Json)
    (hImgs : st.uploadedImages.length ≠ 0) (hPrompt : jsTrim st.prompt ≠ "")
    (hVis : net.visionFetch = FetchOutcome.response true s1 t1 (Except.ok vbody))
    (hRp : extractRefinedPrompt vbody = Except.ok rp)
    (hImg : net.imageFetch = FetchOutcome.response true s2 t2 (Except.ok ibody))
    (hUrl : extractImageUrl ibody = Except.ok url) :
    (generateImage key net st).1.generatedImage = url ∧
    (generateImage key net st).1.isGenerating = false ∧
    (generateImage key net st).1.error = "" := by
  have hc : ¬(st.uploadedImages.length = 0 ∨ jsTrim st.prompt = "") :=
    not_or.mpr ⟨hImgs, hPrompt⟩
  have hA : generateAttempt key st.uploadedImages st.prompt net.visionFetch net.imageFetch =
      (Except.ok url,
       [chatRequest key st.uploadedImages st.prompt, imageRequest key rp]) := by
    rw [hVis, hImg]
    simp [generateAttempt, hRp, hUrl]
  have hfin : generateImage key net st =
      ({ st with isGenerating := false, error := "", generatedImage := url },
       [chatRequest key st.uploadedImages st.prompt, imageRequest key rp]) := by
    unfold generateImage
    rw [if_neg hc, hA]
  rw [hfin]
  exact ⟨rfl, rfl, rfl⟩

/-- A generation state with a prior generated image present. -/
def stOld : GenState := ⟨["imgA"], "a cat", Json.str "https://old-image", false, "", false⟩

/-- A network where both calls succeed and carry well-formed bodies. -/
def netC3 : Network :=
  ⟨FetchOutcome.response true 200 "OK" (Except.ok visionOkBody),
   FetchOutcome.response true 200 "OK" (Except.ok (Json.obj [("data",
     Json.arr [Json.obj [("url", Json.str "https://new-image")]])]))⟩

/-- Witness for C3: the prior image is replaced by the new URL. -/
theorem generate_success_replaces_image_witness :
    (generateImage "k" netC3 stOld).1.generatedImage = Json.str "https://new-image" ∧
    (generateImage "k" netC3 stOld).1.isGenerating = false := by
  have h := generate_success_replaces_image "k" netC3 stOld 200 200 "OK" "OK"
    visionOkBody
    (Json.obj [("data", Json.arr [Json.obj [("url", Json.str "https://new-image")]])])
    (Json.str "refined prompt") (Json.str "https://new-image")
    (by decide) (by decide) rfl rfl rfl rfl
  exact ⟨h.1, h.2.1⟩

/-- C4: past the precondition check, the generating flag is cleared on every
path, and whenever the try-block throws, the thrown message becomes the
error state rather than escaping or being dropped. -/
theorem generate_clears_flag_and_surfaces_exception (key : String) (net : Network)
    (st : GenState) (hImgs : st.uploadedImages.length ≠ 0)
    (hPrompt : jsTrim st.prompt ≠ "") :
    (generateImage key net st).1.isGenerating = false ∧
    (∀ m reqs,
      generateAttempt key st.uploadedImages st.prompt net.visionFetch net.imageFetch =
        (Except.error m, reqs) →
      (generateImage key net st).1.error = m) := by
  have hc : ¬(st.uploadedImages.length = 0 ∨ jsTrim st.prompt = "") :=
    not_or.mpr ⟨hImgs, hPrompt⟩
  constructor
  · unfold generateImage
    rw [if_neg hc]
    obtain ⟨res, reqs, hA⟩ : ∃ res reqs,
        generateAttempt key st.uploadedImages st.prompt net.visionFetch net.imageFetch =
          (res, reqs) := ⟨_, _, rfl⟩
    rw [hA]
    cases res <;> rfl
  · intro m reqs hA
    unfold generateImage
    rw [if_neg hc, hA]

/-- A network whose first fetch rejects at the transport level. -/
def netC4 : Network :=
  ⟨FetchOutcome.throwEx "TypeError: Failed to fetch", FetchOutcome.throwEx "unused"⟩

/-- Witness for C4: a transport exception is surfaced as the error and the
flag ends false. -/
theorem generate_clears_flag_and_surfaces_exception_witness :
    (generateImage "k" netC4 stC1).1.isGenerating = false ∧
    (generateImage "k" netC4 stC1).1.error = "TypeError: Failed to fetch" := by
  have h := generate_clears_flag_and_surfaces_exception "k" netC4 stC1
    (by decide) (by decide)
  exact ⟨h.1, h.2 "TypeError: Failed to fetch" [chatRequest "k" ["imgA"] "a cat"] rfl⟩

/-- C5 (amended): when refinement succeeds but the image response has a
non-success status, the generated image, uploaded images and prompt are left
exactly as they were, and the error state is assigned the derived failure
message: the stringified provider message when truthy, the generic fallback
when absent or falsy, or the thrown exception message when parsing or reading
the message throws. In the degenerate case where the truthy provider message
stringifies to the empty string, the assigned message is empty. -/
theorem image_failure_preserves_generated_image (key : String) (net : Network)
    (st : GenState) (s1 s2 : Nat) (t1 t2 : String) (vbody rp : Json)
    (jres2 : Except String Json)
    (hImgs : st.uploadedImages.length ≠ 0) (hPrompt : jsTrim st.prompt ≠ "")
    (hVis : net.visionFetch = FetchOutcome.response true s1 t1 (Except.ok vbody))
    (hRp : extractRefinedPrompt vbody = Except.ok rp)
    (hImg : net.imageFetch = FetchOutcome.response false s2 t2 jres2) :
    (generateImage key net st).1.generatedImage = st.generatedImage ∧
    (generateImage key net st).1.uploadedImages = st.uploadedImages ∧
    (generateImage key net st).1.prompt = st.prompt ∧
    (∀ body v, jres2 = Except.ok body → jsErrorMessage body = Except.ok v →
      v.truthy = true → (generateImage key net st).1.error = v.jsToString) ∧
    (∀ body v, jres2 = Except.ok body → jsErrorMessage body = Except.ok v →
      v.truthy = false → (generateImage key net st).1.error = "Failed to generate image") ∧
    (∀ m, jres2 = Except.error m → (generateImage key net st).1.error = m) ∧
    (∀ body m, jres2 = Except.ok body → jsErrorMessage body = Except.error m →
      (generateImage key net st).1.error = m) := by
  have hc : ¬(st.uploadedImages.length = 0 ∨ jsTrim st.prompt = "") :=
    not_or.mpr ⟨hImgs, hPrompt⟩
  have hG : ∀ m,
      generateAttempt key st.uploadedImages st.prompt net.visionFetch net.imageFetch =
        (Except.error m,
         [chatRequest key st.uploadedImages st.prompt, imageRequest key rp]) →
      generateImage key net st =
        ({ st with isGenerating := false, error := m },
         [chatRequest key st.uploadedImages st.prompt, imageRequest key rp]) := by
    intro m hA
    unfold generateImage
    rw [if_neg hc, hA]
  have hAm : ∀ body m, jres2 = Except.ok body → jsErrorMessage body = Except.error m →
      generateAttempt key st.uploadedImages st.prompt net.visionFetch net.imageFetch =
        (Except.error m,
         [chatRequest key st.uploadedImages st.prompt, imageRequest key rp]) := by
    intro body m h1 h2
    subst h1
    rw [hVis, hImg]
    simp [generateAttempt, hRp, h2]
  have hAv : ∀ body v, jres2 = Except.ok body → jsErrorMessage body = Except.ok v →
      generateAttempt key st.uploadedImages st.prompt net.visionFetch net.imageFetch =
        (Except.error (if v.truthy then v.jsToString else "Failed to generate image"),
         [chatRequest key st.uploadedImages st.prompt, imageRequest key rp]) := by
    intro body v h1 h2
    subst h1
    rw [hVis, hImg]
    simp [generateAttempt, hRp, h2]
  have hAe : ∀ m, jres2 = Except.error m →
      generateAttempt key st.uploadedImages st.prompt net.visionFetch net.imageFetch =
        (Except.error m,
         [chatRequest key st.uploadedImages st.prompt, imageRequest key rp]) := by
    intro m h1
    subst h1
    rw [hVis, hImg]
    simp [generateAttempt, hRp]
  have hframe : (generateImage key net st).1.generatedImage = st.generatedImage ∧
      (generateImage key net st).1.uploadedImages = st.uploadedImages ∧
      (generateImage key net st).1.prompt = st.prompt := by
    rcases jres2 with m | body
    · rw [hG m (hAe m rfl)]
      exact ⟨rfl, rfl, rfl⟩
    · rcases hE : jsErrorMessage body with m | v
      · rw [hG m (hAm body m rfl hE)]
        exact ⟨rfl, rfl, rfl⟩
      · rw [hG _ (hAv body v rfl hE)]
        exact ⟨rfl, rfl, rfl⟩
  refine ⟨hframe.1, hframe.2.1, hframe.2.2, ?_, ?_, ?_, ?_⟩
  · intro body v h1 h2 h3
    rw [hG _ (hAv body v h1 h2)]
    simp [h3]
  · intro body v h1 h2 h3
    rw [hG _ (hAv body v h1 h2)]
    simp [h3]
  · intro m h1
    rw [hG m (hAe m h1)]
  · intro body m h1 h2
    rw [hG m (hAm body m h1 h2)]

/-- A network where refinement succeeds but the image response fails with a
provider message that is a truthy empty array. -/
def netC5bad : Network :=
  ⟨FetchOutcome.response true 200 "OK" (Except.ok visionOkBody),
   FetchOutcome.response false 400 "Bad Request"
     (Except.ok (Json.obj [("error", Json.obj [("message", Json.arr [])])]))⟩

/-- Counterexample to C5 as stated: the image call fails with a non-success
status, the prior generated image is indeed untouched, but the error state
ends up as the empty string — no error message is shown — because the truthy
provider message, an empty array, stringifies to the empty string. -/
theorem image_failure_can_leave_empty_error :
    netC5bad.imageFetch = FetchOutcome.response false 400 "Bad Request"
      (Except.ok (Json.obj [("error", Json.obj [("message", Json.arr [])])])) ∧
    (generateImage "k" netC5bad stOld).1.generatedImage = Json.str "https://old-image" ∧
    (generateImage "k" netC5bad stOld).1.error = "" :=
  ⟨rfl, rfl, rfl⟩

/-- A network where refinement succeeds but the image response fails with an
ordinary string provider message. -/
def netC5msg : Network :=
  ⟨FetchOutcome.response true 200 "OK" (Except.ok visionOkBody),
   FetchOutcome.response false 400 "Bad Request"
     (Except.ok (Json.obj [("error", Json.obj [("message",
       Json.str "Billing hard limit has been reached")])]))⟩

/-- Witness for the amended C5: the prior image, uploads and prompt survive
and the provider message becomes the error. -/
theorem image_failure_preserves_generated_image_witness :
    (generateImage "k" netC5msg stOld).1.generatedImage = Json.str "https://old-image" ∧
    (generateImage "k" netC5msg stOld).1.uploadedImages = ["imgA"] ∧
    (generateImage "k" netC5msg stOld).1.prompt = "a cat" ∧
    (generateImage "k" netC5msg stOld).1.error = "Billing hard limit has been reached" := by
  have h := image_failure_preserves_generated_image "k" netC5msg stOld 200 400 "OK"
    "Bad Request" visionOkBody (Json.str "refined prompt")
    (Except.ok (Json.obj [("error", Json.obj [("message",
      Json.str "Billing hard limit has been reached")])]))
    (by decide) (by decide) rfl rfl rfl
  exact ⟨h.1, h.2.1, h.2.2.1,
    h.2.2.2.1 _ (Json.str "Billing hard limit has been reached") rfl rfl rfl⟩

end Img2Img
